import Mathlib

/-!
Verification of the entity-simulation and collision core of the Ceiling Pop 3D
arcade game (`src/js`).  The JavaScript source is embedded shallowly:

* numbers that the source manipulates as floats are modelled as `ℚ`
  (the formulas of interest are exact products, quotients, `Math.floor`,
  `Math.min` / `Math.max`, so `ℚ` captures the intended real arithmetic);
* wall-clock timestamps (`Date.now()`, milliseconds) are modelled as `ℤ`;
* mutable objects become records, methods become functions
  `State → State × Result`;
* external collaborators (renderer meshes, audio cues, DOM updates,
  the power-up manager's randomized activation) are either dropped when they
  touch no simulation state, or abstracted as explicit parameters.
-/

/-- A THREE.Vector3 position / velocity (`x`, `y`, `z` components). -/
structure Point3 where
  x : ℚ
  y : ℚ
  z : ℚ
deriving DecidableEq, Repr

/-- `MathUtils.clamp` from `src/js/utils.js`:
`Math.max(min, Math.min(max, value))`. -/
def MathUtils.clamp (value lo hi : ℚ) : ℚ :=
  max lo (min hi value)

/-- `MathUtils.getDepthBonus` from `src/js/utils.js`:
`const normalizedDepth = Math.abs(z) / maxDepth; return 1 + Math.min(normalizedDepth * 2, 3)`.
The source's default argument is `maxDepth = 200`; callers pass nothing, so the
embedding takes `maxDepth` explicitly and call sites use `200`. -/
def MathUtils.getDepthBonus (z maxDepth : ℚ) : ℚ :=
  let normalizedDepth := |z| / maxDepth
  1 + min (normalizedDepth * 2) 3

/-- Squared Euclidean distance between two points. -/
def distSq (a b : Point3) : ℚ :=
  (a.x - b.x) ^ 2 + (a.y - b.y) ^ 2 + (a.z - b.z) ^ 2

/-- The comparison `a.distanceTo(b) <= r` (used by the collision passes),
embedded without square roots: for the real square root,
`sqrt s ≤ r ↔ 0 ≤ r ∧ s ≤ r²`. -/
def distLe (a b : Point3) (r : ℚ) : Bool :=
  decide (0 ≤ r) && decide (distSq a b ≤ r ^ 2)

/-- The `stats` record of `PlayerState` (`src/js/game-state.js`, constructor). -/
structure Stats where
  balloonsPopped : ℕ
  enemiesDestroyed : ℕ
  powerUpsCollected : ℕ
  totalShotsAccuracy : ℚ
  maxCombo : ℕ
  currentCombo : ℕ
  depthBonusesEarned : ℕ
  vortexChainsTriggered : ℕ
deriving DecidableEq, Repr

/-- The all-zero `stats` object built by the `PlayerState` constructor. -/
def Stats.init : Stats :=
  { balloonsPopped := 0
    enemiesDestroyed := 0
    powerUpsCollected := 0
    totalShotsAccuracy := 0
    maxCombo := 0
    currentCombo := 0
    depthBonusesEarned := 0
    vortexChainsTriggered := 0 }

/-- `PlayerState` from `src/js/game-state.js` (all fields the constructor
assigns, minus the DOM handles touched only by `updateUI`). -/
structure PlayerState where
  score : ℤ
  level : ℕ
  wave : ℕ
  missed : ℕ
  health : ℚ
  maxHealth : ℚ
  shields : ℚ
  maxShields : ℚ
  isShielded : Bool
  depthBonus : ℚ
  totalDepthBonusEarned : ℤ
  vortexChainCount : ℕ
  perspectiveAccuracy : ℚ
  stats : Stats
  MAX_MISSED : ℕ
deriving DecidableEq, Repr

/-- The freshly-constructed `PlayerState` (`new PlayerState()`). -/
def PlayerState.init : PlayerState :=
  { score := 0
    level := 1
    wave := 1
    missed := 0
    health := 100
    maxHealth := 100
    shields := 100
    maxShields := 100
    isShielded := false
    depthBonus := 1
    totalDepthBonusEarned := 0
    vortexChainCount := 0
    perspectiveAccuracy := 1
    stats := Stats.init
    MAX_MISSED := 20 }

/-- `PlayerState.reset`: restores the listed fields and rebuilds `stats`,
except that the source deliberately carries `stats.maxCombo` over
(`const maxCombo = this.stats.maxCombo; ... maxCombo: maxCombo`). -/
def PlayerState.reset (p : PlayerState) : PlayerState :=
  { p with
    score := 0
    level := 1
    wave := 1
    missed := 0
    health := 100
    shields := 100
    isShielded := false
    depthBonus := 1
    totalDepthBonusEarned := 0
    vortexChainCount := 0
    perspectiveAccuracy := 1
    stats := { Stats.init with maxCombo := p.stats.maxCombo } }

/-- `PlayerState.addScore(points, position)`.  Returns the mutated state and
the returned `finalPoints`.  The depth branch runs when the source's truthy
test `position && position.z` holds, i.e. a position was passed and its `z`
is nonzero; `Math.floor` becomes `Int.floor`. -/
def PlayerState.addScore (p : PlayerState) (points : ℤ) (pos : Option Point3) :
    PlayerState × ℤ :=
  let depthStep : PlayerState × ℤ :=
    match pos with
    | some position =>
      if position.z ≠ 0 then
        let depthMultiplier := MathUtils.getDepthBonus position.z 200
        let finalPoints : ℤ := ⌊(points : ℚ) * depthMultiplier⌋
        let p := { p with depthBonus := depthMultiplier }
        if depthMultiplier > 3 / 2 then
          ({ p with
              totalDepthBonusEarned := p.totalDepthBonusEarned + (finalPoints - points)
              stats := { p.stats with
                depthBonusesEarned := p.stats.depthBonusesEarned + 1 } },
            finalPoints)
        else
          (p, finalPoints)
      else
        (p, points)
    | none => (p, points)
  let p1 := depthStep.1
  let comboMultiplier : ℚ := 1 + (p1.stats.currentCombo : ℚ) * (1 / 10)
  let finalPoints : ℤ := ⌊(depthStep.2 : ℚ) * comboMultiplier⌋
  let newCombo := p1.stats.currentCombo + 1
  ({ p1 with
      score := p1.score + finalPoints
      stats := { p1.stats with
        currentCombo := newCombo
        maxCombo := max p1.stats.maxCombo newCombo } },
    finalPoints)

/-- `PlayerState.breakCombo`: `this.stats.currentCombo = 0`. -/
def PlayerState.breakCombo (p : PlayerState) : PlayerState :=
  { p with stats := { p.stats with currentCombo := 0 } }

/-- `PlayerState.addMissed`.  Returns the mutated state and the game-over
boolean the source returns. -/
def PlayerState.addMissed (p : PlayerState) : PlayerState × Bool :=
  if p.isShielded then (p, false)
  else
    let p1 := { p with missed := p.missed + 1 }
    let p2 := p1.breakCombo
    if p2.missed ≥ p2.MAX_MISSED then (p2, true) else (p2, false)

/-- `PlayerState.takeDamage(amount)`.  Returns the mutated state and the
game-over boolean. -/
def PlayerState.takeDamage (p : PlayerState) (amount : ℚ) : PlayerState × Bool :=
  if p.isShielded then (p, false)
  else
    let p1 := { p with
      health := max 0 (p.health - amount)
      shields := max 0 (p.shields - amount) }
    let p2 := p1.breakCombo
    if p2.health ≤ 0 then (p2, true) else (p2, false)

/-- `PlayerState.addVortexChain`: increments the chain counters, then awards
`chainBonus = vortexChainCount * 25` through `addScore` (no position).
Returns the state and the chain bonus. -/
def PlayerState.addVortexChain (p : PlayerState) : PlayerState × ℤ :=
  let p1 := { p with
    vortexChainCount := p.vortexChainCount + 1
    stats := { p.stats with
      vortexChainsTriggered := p.stats.vortexChainsTriggered + 1 } }
  let chainBonus : ℤ := (p1.vortexChainCount : ℤ) * 25
  ((p1.addScore chainBonus none).1, chainBonus)

/-- `ObjectPool` from `src/js/utils.js`: a free list (`pool`) and an active
list.  Elements are modelled by identity; `createFn` / `resetFn` live outside
the state. -/
structure ObjectPool (α : Type) where
  pool : List α
  active : List α
deriving DecidableEq, Repr

/-- `ObjectPool.release(obj)`: `indexOf` + `splice` remove the first
occurrence of `obj` from `active`; then `resetFn(obj)` runs and `obj` is
pushed onto the free list.  When `obj` is not active (`indexOf === -1`)
nothing happens. -/
def ObjectPool.release {α : Type} [DecidableEq α] (resetFn : α → α)
    (s : ObjectPool α) (obj : α) : ObjectPool α :=
  if obj ∈ s.active then
    { s with active := s.active.erase obj, pool := s.pool ++ [resetFn obj] }
  else s

/-- The wave-progression slice of `GameFlow` plus the two `window.player`
fields it reads and writes (`wave` via `setWave`, `stats.enemiesDestroyed`
read by `shouldAdvanceWave`). -/
structure GameFlow where
  wave : ℕ
  waveStartTime : ℤ
  waveEnemiesRequired : ℕ
  enemiesDestroyed : ℕ
deriving DecidableEq, Repr

/-- `waveConfig.waveDuration` (milliseconds). -/
def waveDuration : ℤ := 30000

/-- `GameFlow.shouldAdvanceWave`: enough enemies defeated this wave. -/
def GameFlow.shouldAdvanceWave (g : GameFlow) : Bool :=
  g.enemiesDestroyed ≥ g.waveEnemiesRequired

/-- `GameFlow.advanceWave` at wall-clock time `now`: bumps the player wave,
restamps the wave start, raises the kill threshold by 2. -/
def GameFlow.advanceWave (g : GameFlow) (now : ℤ) : GameFlow :=
  { g with
    wave := g.wave + 1
    waveStartTime := now
    waveEnemiesRequired := g.waveEnemiesRequired + 2 }

/-- `GameFlow.checkWaveProgression` run at wall-clock time `now`
(`const waveTime = Date.now() - this.waveStartTime;
if (waveTime > this.waveConfig.waveDuration || this.shouldAdvanceWave()) ...`).
Note the strict `>`. -/
def GameFlow.checkWaveProgression (g : GameFlow) (now : ℤ) : GameFlow :=
  let waveTime := now - g.waveStartTime
  if waveTime > waveDuration ∨ g.shouldAdvanceWave then g.advanceWave now else g

/-- `GameFlow.isBossWave` (`src/js/game-state.js`): the current wave is an
exact multiple of `waveConfig.bossWaveInterval = 5`. -/
def GameFlow.isBossWave (g : GameFlow) : Bool :=
  g.wave % 5 == 0

/-- `GameFlow.getWaveProgress` at wall-clock time `now`:
`Math.min(1, waveTime / this.waveConfig.waveDuration)`. -/
def GameFlow.getWaveProgress (g : GameFlow) (now : ℤ) : ℚ :=
  min 1 (((now - g.waveStartTime : ℤ) : ℚ) / (waveDuration : ℚ))

/-- One frame of the controller's `updateGame()` (`GameController` in the
main-controller source), restricted to the wave state: first
`gameFlow.update()` runs `checkWaveProgression` (its `checkLevelProgression`
only spawns the boss externally), then — after the scene update and spawning,
which do not touch the wave — `checkGameConditions()` runs: on a boss wave
with no live enemies it calls `levelComplete()`, which pauses the game and
awaits the player (signalled by the returned flag; the wave changes only on
the player's continue click, outside this frame); on a non-boss wave with
`getWaveProgress() >= 1` — a NON-strict 30 s test — it calls
`advanceWave()`.  `enemyCount` is `sceneManager.enemies.length`. -/
def GameFlow.frameTick (g : GameFlow) (now : ℤ) (enemyCount : ℕ) :
    GameFlow × Bool :=
  let g1 := g.checkWaveProgression now
  if g1.isBossWave && enemyCount == 0 then
    (g1, true)
  else if !g1.isBossWave && decide (1 ≤ g1.getWaveProgress now) then
    (g1.advanceWave now, false)
  else
    (g1, false)

/-- Run one `frameTick` per frame at the given (timestamp, enemy-count)
pairs, stopping early when a frame pauses the game (no further ticks run
while paused). -/
def GameFlow.runFrames : GameFlow → List (ℤ × ℕ) → GameFlow × Bool
  | g, [] => (g, false)
  | g, f :: fs =>
    let r := g.frameTick f.1 f.2
    if r.2 = true then r else GameFlow.runFrames r.1 fs

/-- A balloon's visual category (`this.type` in `Balloon3D`). -/
inductive BalloonType
  | normal
  | armored
  | powerup
deriving DecidableEq, Repr

/-- `Balloon3D` from `src/js/game-objects.js`, restricted to the fields the
simulation reads (mesh, colour and bob parameters drive only rendering).
`maxAge` is `Infinity` (`none`) for every balloon the constructor builds. -/
structure Balloon where
  position : Point3
  velocity : Point3
  age : ℚ
  maxAge : Option ℚ
  isAlive : Bool
  radius : ℚ
  points : ℤ
  health : ℤ
  type : BalloonType
deriving DecidableEq, Repr

/-- The ambient collaborators `Balloon3D.destroy` consults:
whether `powerUpManager.isActive('VORTEX_AMPLIFIER')` holds, whether
`sceneManager.getBalloons()` yields another live balloon within the chain
radius, and the effect on the player of `powerUpManager.activate` with the
randomly drawn power-up type (for `type === 'powerup'` balloons). -/
structure DestroyCtx where
  vortexActive : Bool
  nearbyBalloons : Bool
  powerupEffect : PlayerState → PlayerState

/-- `Balloon3D.destroy`: guarded by `if (!this.isAlive) return;`.  In source
order: `addScore(points, position)` plus `balloonsPopped++` for normal
balloons, particles (external), power-up activation for power-up balloons,
sound (external), `checkVortexChain` (which calls `player.addVortexChain()`
when the amplifier is active and a live balloon is nearby; the delayed hits it
schedules land outside this call), then `super.destroy()` clears `isAlive`. -/
def Balloon.destroy (ctx : DestroyCtx) (b : Balloon) (p : PlayerState) :
    Balloon × PlayerState :=
  if !b.isAlive then (b, p)
  else
    let p1 := (p.addScore b.points (some b.position)).1
    let p2 :=
      if b.type = BalloonType.normal then
        { p1 with stats := { p1.stats with balloonsPopped := p1.stats.balloonsPopped + 1 } }
      else p1
    let p3 := if b.type = BalloonType.powerup then ctx.powerupEffect p2 else p2
    let p4 := if ctx.vortexActive && ctx.nearbyBalloons then (p3.addVortexChain).1 else p3
    ({ b with isAlive := false }, p4)

/-- `Balloon3D.hit`: decrements `health` unconditionally, destroys on
`health <= 0` and returns `true`; otherwise cosmetic damage feedback only and
`false`. -/
def Balloon.hit (ctx : DestroyCtx) (b : Balloon) (p : PlayerState) :
    Balloon × PlayerState × Bool :=
  let b1 := { b with health := b.health - 1 }
  if b1.health ≤ 0 then
    let r := Balloon.destroy ctx b1 p
    (r.1, r.2, true)
  else
    (b1, p, false)

/-- `Balloon3D.onMissed`: `player.addMissed()`; a game-over result is routed
to the external game controller and does not touch `PlayerState`. -/
def Balloon.onMissed (b : Balloon) (p : PlayerState) : PlayerState :=
  (p.addMissed).1

/-- `Balloon3D.update(deltaTime)`.  `super.update` advances age and position
and destroys on age expiry (vacuous for balloons, whose `maxAge` is
`Infinity`); the bob offset touches only the mesh; then the missed check:
`if (this.position.z > 20) { this.onMissed(); this.destroy(); }`; the final
opacity update is rendering only. -/
def Balloon.update (ctx : DestroyCtx) (dt : ℚ) (b : Balloon) (p : PlayerState) :
    Balloon × PlayerState :=
  let b1 := { b with
    age := b.age + dt
    position := ⟨b.position.x + b.velocity.x * dt,
                 b.position.y + b.velocity.y * dt,
                 b.position.z + b.velocity.z * dt⟩ }
  let step1 :=
    match b1.maxAge with
    | some m => if b1.age ≥ m then Balloon.destroy ctx b1 p else (b1, p)
    | none => (b1, p)
  let b2 := step1.1
  let p1 := step1.2
  if b2.position.z > 20 then
    let p2 := b2.onMissed p1
    Balloon.destroy ctx b2 p2
  else (b2, p1)

/-- `EnemyDrone3D`, restricted to the fields the collision pass reads. -/
structure Enemy where
  position : Point3
  width : ℚ
  height : ℚ
  depth : ℚ
  isAlive : Bool
  points : ℤ
  health : ℤ
deriving DecidableEq, Repr

/-- `EnemyDrone3D.destroy`: guarded by `if (!this.isAlive) return;`, then
`addScore(points, position)`, `enemiesDestroyed++`, explosion and sound
(external), `super.destroy()`. -/
def Enemy.destroy (e : Enemy) (p : PlayerState) : Enemy × PlayerState :=
  if !e.isAlive then (e, p)
  else
    let p1 := (p.addScore e.points (some e.position)).1
    let p2 := { p1 with stats := { p1.stats with enemiesDestroyed := p1.stats.enemiesDestroyed + 1 } }
    ({ e with isAlive := false }, p2)

/-- `EnemyDrone3D.hit`: `health--`, destroy and return `true` on
`health <= 0`, else `false` (flash and sound are external). -/
def Enemy.hit (e : Enemy) (p : PlayerState) : Enemy × PlayerState × Bool :=
  let e1 := { e with health := e.health - 1 }
  if e1.health ≤ 0 then
    let r := e1.destroy p
    (r.1, r.2, true)
  else
    (e1, p, false)

/-- A projectile's owner tag. -/
inductive Owner
  | player
  | enemy
deriving DecidableEq, Repr

/-- `Projectile3D`, restricted to the fields `handleCollisions` reads. -/
structure Projectile where
  owner : Owner
  position : Point3
  isAlive : Bool
  damage : ℚ
deriving DecidableEq, Repr

/-- The enemy half of `SceneManager.handleCollisions` for one player
projectile: `this.enemies.forEach(enemy => ...)`.  Per ECMAScript, `forEach`
fixes the index range at entry and reads the array live, so `ks` is
`List.range` of the entry length, a spliced-away index yields `none` and is
skipped, and `removeObject` (indexOf + splice on the current element) is
`eraseIdx k`.  A hit destroys the projectile but the loop body never re-checks
`projectile.isAlive`. -/
def enemyLoop : List ℕ → Projectile → List Enemy → PlayerState →
    Projectile × List Enemy × PlayerState
  | [], proj, es, p => (proj, es, p)
  | k :: ks, proj, es, p =>
    match es[k]? with
    | none => enemyLoop ks proj es p
    | some e =>
      if e.isAlive && distLe proj.position e.position (max e.width e.height / 2 + 1) then
        let r := e.hit p
        let es1 := if r.2.2 then es.eraseIdx k else es.set k r.1
        enemyLoop ks { proj with isAlive := false } es1 r.2.1
      else
        enemyLoop ks proj es p

/-- The balloon half of `SceneManager.handleCollisions` for one player
projectile, same iteration semantics; the hit radius is
`balloon.radius + 0.5`. -/
def balloonLoop (ctx : DestroyCtx) : List ℕ → Projectile → List Balloon → PlayerState →
    Projectile × List Balloon × PlayerState
  | [], proj, bs, p => (proj, bs, p)
  | k :: ks, proj, bs, p =>
    match bs[k]? with
    | none => balloonLoop ctx ks proj bs p
    | some b =>
      if b.isAlive && distLe proj.position b.position (b.radius + 1 / 2) then
        let r := Balloon.hit ctx b p
        let bs1 := if r.2.2 then bs.eraseIdx k else bs.set k r.1
        balloonLoop ctx ks { proj with isAlive := false } bs1 r.2.1
      else
        balloonLoop ctx ks proj bs p

/-- `SceneManager.handleCollisions`, specialised to a single projectile of the
snapshot `this.projectiles.filter(p => p.owner === 'player')`:
the initial `if (!projectile.isAlive) return;`, the enemy pass, then the
balloon pass guarded by `if (projectile.isAlive)`. -/
def handleProjectile (ctx : DestroyCtx) (proj : Projectile) (es : List Enemy)
    (bs : List Balloon) (p : PlayerState) :
    Projectile × List Enemy × List Balloon × PlayerState :=
  if proj.owner = Owner.player then
    if !proj.isAlive then (proj, es, bs, p)
    else
      let r1 := enemyLoop (List.range es.length) proj es p
      if r1.1.isAlive then
        let r2 := balloonLoop ctx (List.range bs.length) r1.1 bs r1.2.2
        (r2.1, r1.2.1, r2.2.1, r2.2.2)
      else
        (r1.1, r1.2.1, bs, r1.2.2)
  else (proj, es, bs, p)

/-- A destroy context with no vortex amplifier, no nearby balloon, and an
inert power-up activation. -/
def ctxPlain : DestroyCtx :=
  { vortexActive := false, nearbyBalloons := false, powerupEffect := id }

/-- A player mid-run with a 2-hit combo going (used against claim C3). -/
def pC3 : PlayerState :=
  { PlayerState.init with stats := { Stats.init with currentCombo := 2 } }

/-- A player that has reached a 5-hit max combo (used against claim C8). -/
def playerMaxCombo : PlayerState :=
  { PlayerState.init with stats := { Stats.init with maxCombo := 5 } }

/-- A player with the shield power-up active. -/
def shieldedPlayer : PlayerState :=
  { PlayerState.init with isShielded := true }

/-- An already-destroyed normal balloon whose hit-points ran out. -/
def deadBalloon : Balloon :=
  { position := ⟨0, 0, 0⟩, velocity := ⟨0, 0, 0⟩, age := 0, maxAge := none,
    isAlive := false, radius := 3, points := 50, health := 0,
    type := BalloonType.normal }

/-- A live normal balloon one tick away from crossing the near boundary. -/
def balloonC10 : Balloon :=
  { position := ⟨0, 0, 19⟩, velocity := ⟨0, 0, 2⟩, age := 0, maxAge := none,
    isAlive := true, radius := 3, points := 50, health := 1,
    type := BalloonType.normal }

/-- A live balloon sitting away from the collision test point. -/
def balloonFar : Balloon :=
  { position := ⟨40, 0, -60⟩, velocity := ⟨0, 0, 10⟩, age := 0, maxAge := none,
    isAlive := true, radius := 3, points := 50, health := 1,
    type := BalloonType.normal }

/-- A live player projectile at the origin. -/
def projC2 : Projectile :=
  { owner := Owner.player, position := ⟨0, 0, 0⟩, isAlive := true, damage := 1 }

/-- A live enemy drone on top of `projC2` (constructor dimensions 3×2×4,
2 hit-points, 75 points). -/
def enemyA : Enemy :=
  { position := ⟨0, 0, 0⟩, width := 3, height := 2, depth := 4,
    isAlive := true, points := 75, health := 2 }

/-- A second live enemy drone, also within `projC2`'s hit radius. -/
def enemyB : Enemy :=
  { position := ⟨1, 0, 0⟩, width := 3, height := 2, depth := 4,
    isAlive := true, points := 75, health := 2 }

/-- A fresh wave state: wave 1 started at time 0, 10 kills required, none
scored. -/
def flowStart : GameFlow :=
  { wave := 1, waveStartTime := 0, waveEnemiesRequired := 10,
    enemiesDestroyed := 0 }

/-- Claim C4: `getDepthBonus` is monotone non-decreasing in `|z|`, always lies
in `[1, 4]`, maps depth 0 to exactly 1 and depth 200 (with `maxDepth = 200`)
to exactly 3. -/
theorem C4_depthBonus_monotone_bounded (z1 z2 z md : ℚ) (hmd : 0 < md) :
    (|z1| ≤ |z2| → MathUtils.getDepthBonus z1 md ≤ MathUtils.getDepthBonus z2 md) ∧
    1 ≤ MathUtils.getDepthBonus z md ∧ MathUtils.getDepthBonus z md ≤ 4 ∧
    MathUtils.getDepthBonus 0 200 = 1 ∧ MathUtils.getDepthBonus 200 200 = 3 := by
  unfold MathUtils.getDepthBonus
  have hnn : 0 ≤ |z| / md * 2 := by positivity
  refine ⟨?_, by simp only []; nlinarith [min_le_right (|z| / md * 2) (3 : ℚ), le_min hnn (by norm_num : (0:ℚ) ≤ 3)],
    by simp only []; nlinarith [min_le_right (|z| / md * 2) (3 : ℚ)], by norm_num, by norm_num⟩
  intro h
  have h1 : |z1| / md * 2 ≤ |z2| / md * 2 := by gcongr
  simp only []
  gcongr

/-- Witness for C4 at `z1 = 0`, `z2 = 1`, `z = 5`, `maxDepth = 200`. -/
theorem C4_witness :
    ((|(0 : ℚ)| ≤ |(1 : ℚ)| → MathUtils.getDepthBonus 0 200 ≤ MathUtils.getDepthBonus 1 200) ∧
     1 ≤ MathUtils.getDepthBonus 5 200 ∧ MathUtils.getDepthBonus 5 200 ≤ 4 ∧
     MathUtils.getDepthBonus 0 200 = 1 ∧ MathUtils.getDepthBonus 200 200 = 3) :=
  C4_depthBonus_monotone_bounded 0 1 5 200 (by norm_num)

/-- Claim C5: releasing an object that is not in the pool's active set is a
complete no-op — the active set and the free list are both unchanged (so in
particular a double release cannot put the object on the free list twice). -/
theorem C5_release_inactive_noop {α : Type} [DecidableEq α] (resetFn : α → α)
    (s : ObjectPool α) (obj : α) (h : obj ∉ s.active) :
    ObjectPool.release resetFn s obj = s := by
  simp [ObjectPool.release, h]

/-- Witness for C5: releasing `4` into a pool whose active set is `[3]`. -/
theorem C5_witness :
    ObjectPool.release id (ObjectPool.mk [1, 2] [3]) (4 : ℕ) = ObjectPool.mk [1, 2] [3] :=
  C5_release_inactive_noop id (ObjectPool.mk [1, 2] [3]) 4 (by decide)

/-- Claim C9: while the shield is active, `addMissed` and `takeDamage` both
return `false` (no game-over) and leave the whole player state — missed
count, health, shields, combo — unchanged. -/
theorem C9_shield_blocks_all (p : PlayerState) (amount : ℚ)
    (h : p.isShielded = true) :
    p.addMissed = (p, false) ∧ p.takeDamage amount = (p, false) := by
  simp [PlayerState.addMissed, PlayerState.takeDamage, h]

/-- Witness for C9 on a concrete shielded player and damage 10. -/
theorem C9_witness :
    shieldedPlayer.addMissed = (shieldedPlayer, false) ∧
      shieldedPlayer.takeDamage 10 = (shieldedPlayer, false) :=
  C9_shield_blocks_all shieldedPlayer 10 rfl

/-- Counterexample to claim C8: `reset` does not restore `stats.maxCombo` to
its freshly-constructed value 0 — a pre-reset max combo of 5 survives. -/
theorem C8_counterexample :
    (playerMaxCombo.reset).stats.maxCombo ≠ PlayerState.init.stats.maxCombo := by
  simp [playerMaxCombo, PlayerState.reset, PlayerState.init, Stats.init]

/-- Amended claim C8: for any state whose never-mutated capacity fields still
hold their constructor values, `reset` rebuilds exactly the freshly
constructed `PlayerState` except that `stats.maxCombo` is preserved. -/
theorem C8_reset_fresh_except_maxCombo (p : PlayerState)
    (h1 : p.maxHealth = 100) (h2 : p.maxShields = 100) (h3 : p.MAX_MISSED = 20) :
    p.reset =
      { PlayerState.init with
        stats := { Stats.init with maxCombo := p.stats.maxCombo } } := by
  obtain ⟨s, l, w, m, hl, mh, sh, msh, ish, db, td, vc, pa, st, mm⟩ := p
  obtain ⟨a1, a2, a3, a4, a5, a6, a7, a8⟩ := st
  subst h1 h2 h3
  rfl

/-- Witness for C8's amended claim on the max-combo-5 player. -/
theorem C8_witness :
    playerMaxCombo.reset =
      { PlayerState.init with
        stats := { Stats.init with maxCombo := playerMaxCombo.stats.maxCombo } } :=
  C8_reset_fresh_except_maxCombo playerMaxCombo rfl rfl rfl

/-- Frames whose timestamps lie strictly inside the 30 s window are complete
no-ops on a non-boss wave with the kill threshold unmet: the strict
`checkWaveProgression` test fails, the boss branch of `checkGameConditions`
is skipped, and `getWaveProgress < 1` blocks the non-strict branch. -/
theorem GameFlow.runFrames_skip (g : GameFlow) (fs qs : List (ℤ × ℕ))
    (hk : g.enemiesDestroyed < g.waveEnemiesRequired)
    (hboss : g.wave % 5 ≠ 0)
    (hfs : ∀ f ∈ fs, f.1 < g.waveStartTime + waveDuration) :
    g.runFrames (fs ++ qs) = g.runFrames qs := by
  induction fs with
  | nil => rfl
  | cons f fs ih =>
    have htime := hfs f (List.mem_cons_self f fs)
    have h1 : ¬(f.1 - g.waveStartTime > waveDuration) := by
      simp only [waveDuration] at *
      omega
    have h2 : g.shouldAdvanceWave = false := by
      simp only [GameFlow.shouldAdvanceWave, decide_eq_false_iff_not]
      omega
    have hstep : g.checkWaveProgression f.1 = g := by
      simp [GameFlow.checkWaveProgression, h1, h2]
    have hbossF : g.isBossWave = false := by
      simpa [GameFlow.isBossWave] using hboss
    have hprog : ¬((1 : ℚ) ≤ g.getWaveProgress f.1) := by
      simp only [GameFlow.getWaveProgress, waveDuration] at *
      have hq : ((f.1 - g.waveStartTime : ℤ) : ℚ) / 30000 < 1 := by
        rw [div_lt_one (by norm_num)]
        exact_mod_cast (by omega : (f.1 - g.waveStartTime : ℤ) < 30000)
      have hmin := min_le_right (1 : ℚ) (((f.1 - g.waveStartTime : ℤ) : ℚ) / 30000)
      intro hcon
      push_cast at hq hmin hcon
      linarith
    have hframe : g.frameTick f.1 f.2 = (g, false) := by
      simp [GameFlow.frameTick, hstep, hbossF, hprog]
    show (GameFlow.runFrames g (f :: (fs ++ qs))) = GameFlow.runFrames g qs
    rw [GameFlow.runFrames, hframe]
    exact ih (fun u hu => hfs u (List.mem_cons_of_mem f hu))

/-- Claim C7: with `waveDuration = 30 s`, no enemy kills and a non-boss wave,
frames whose delta-times sum to exactly 30 s advance the wave exactly once:
the frames strictly inside the window leave it untouched, and the frame at
the 30 s boundary increments it by exactly 1 — via the controller's
non-strict `checkGameConditions` path (`getWaveProgress() >= 1`), which
fires at `waveTime = 30000` even though `checkWaveProgression`'s own test is
strict. -/
theorem C7_wave_increments_exactly_once (g : GameFlow) (pre : List (ℤ × ℕ))
    (t : ℤ) (n : ℕ)
    (hk : g.enemiesDestroyed < g.waveEnemiesRequired)
    (hboss : g.wave % 5 ≠ 0)
    (hpre : ∀ f ∈ pre, f.1 < g.waveStartTime + waveDuration)
    (ht : t = g.waveStartTime + waveDuration) :
    (g.runFrames pre).1.wave = g.wave ∧
    (g.runFrames (pre ++ [(t, n)])).1.wave = g.wave + 1 := by
  have hpre0 := GameFlow.runFrames_skip g pre [] hk hboss hpre
  have hpre1 := GameFlow.runFrames_skip g pre [(t, n)] hk hboss hpre
  constructor
  · rw [List.append_nil] at hpre0
    rw [hpre0]
    rfl
  · rw [hpre1]
    have h1 : ¬(t - g.waveStartTime > waveDuration) := by omega
    have h2 : g.shouldAdvanceWave = false := by
      simp only [GameFlow.shouldAdvanceWave, decide_eq_false_iff_not]
      omega
    have hstep : g.checkWaveProgression t = g := by
      simp [GameFlow.checkWaveProgression, h1, h2]
    have hbossF : g.isBossWave = false := by
      simpa [GameFlow.isBossWave] using hboss
    have hprog : (1 : ℚ) ≤ g.getWaveProgress t := by
      simp only [GameFlow.getWaveProgress, waveDuration, ht]
      norm_num
    have hframe : g.frameTick t n = (g.advanceWave t, false) := by
      simp [GameFlow.frameTick, hstep, hbossF, hprog]
    show (GameFlow.runFrames g [(t, n)]).1.wave = g.wave + 1
    rw [GameFlow.runFrames, hframe]
    simp [GameFlow.runFrames, GameFlow.advanceWave]

/-- Witness for C7: wave 1 started at time 0, a frame at 15 s and the frame
at exactly 30 s — the first leaves the wave at 1, the second advances it to
exactly 2. -/
theorem C7_witness :
    (flowStart.runFrames [(15000, 0)]).1.wave = flowStart.wave ∧
    (flowStart.runFrames ([(15000, 0)] ++ [(30000, 0)])).1.wave = flowStart.wave + 1 :=
  C7_wave_increments_exactly_once flowStart [(15000, 0)] 30000 0
    (by decide) (by decide) (by decide) (by decide)

/-- Counterexample to claim C3: with base points 50, a 2-hit combo
(multiplier 1.2) and depth z = 25 (multiplier 1.25), `addScore` awards
`floor(floor(50 × 1.25) × 1.2) = 74`, not the single floor of the full
product `floor(50 × 1.2 × 1.25) = 75`. -/
theorem C3_counterexample :
    (pC3.addScore 50 (some ⟨0, 0, 25⟩)).2 = 74 ∧
    (74 : ℤ) ≠ ⌊(50 : ℚ) * (1 + (2 : ℚ) * (1 / 10)) * MathUtils.getDepthBonus 25 200⌋ := by
  constructor
  · norm_num [pC3, PlayerState.addScore, PlayerState.init, Stats.init,
      MathUtils.getDepthBonus]
  · norm_num [MathUtils.getDepthBonus]

/-- Amended claim C3: for a score event with a position of nonzero depth, the
points added are `floor(floor(p × d) × (1 + c × 0.1))` — depth bonus floored
first, combo multiplier floored second — and after `breakCombo` the next
score event uses combo multiplier exactly 1, awarding `floor(p × d)`. -/
theorem C3_score_two_floors (st : PlayerState) (pts : ℤ) (pos : Point3)
    (hz : pos.z ≠ 0) :
    (st.addScore pts (some pos)).2 =
      ⌊(⌊(pts : ℚ) * MathUtils.getDepthBonus pos.z 200⌋ : ℚ) *
        (1 + (st.stats.currentCombo : ℚ) * (1 / 10))⌋ ∧
    (st.addScore pts (some pos)).1.score = st.score + (st.addScore pts (some pos)).2 ∧
    ((st.breakCombo).addScore pts (some pos)).2 =
      ⌊(pts : ℚ) * MathUtils.getDepthBonus pos.z 200⌋ := by
  refine ⟨?_, ?_, ?_⟩
  · simp only [PlayerState.addScore, hz, if_true, ne_eq, not_false_eq_true, ite_true]
    split <;> simp
  · simp only [PlayerState.addScore, hz, ne_eq, not_false_eq_true, ite_true]
    split <;> simp
  · simp only [PlayerState.addScore, PlayerState.breakCombo, hz, ne_eq,
      not_false_eq_true, ite_true]
    split <;> simp

/-- Witness for C3's amended claim at points 50, combo 2, depth 25. -/
theorem C3_witness :
    (pC3.addScore 50 (some ⟨0, 0, 25⟩)).2 =
      ⌊(⌊(50 : ℚ) * MathUtils.getDepthBonus (Point3.mk 0 0 25).z 200⌋ : ℚ) *
        (1 + (pC3.stats.currentCombo : ℚ) * (1 / 10))⌋ ∧
    (pC3.addScore 50 (some ⟨0, 0, 25⟩)).1.score =
      pC3.score + (pC3.addScore 50 (some ⟨0, 0, 25⟩)).2 ∧
    ((pC3.breakCombo).addScore 50 (some ⟨0, 0, 25⟩)).2 =
      ⌊(50 : ℚ) * MathUtils.getDepthBonus (Point3.mk 0 0 25).z 200⌋ :=
  C3_score_two_floors pC3 50 ⟨0, 0, 25⟩ (by norm_num)

/-- Claim C1: every resolved hit decrements a balloon's hit-points by exactly
1; `destroy` always leaves the balloon dead; and a second `destroy` on the
result is a complete no-op — balloon, score, stat counters and combo are all
left unchanged, so the destruction side effects fire at most once. -/
theorem C1_hit_decrements_destroy_once (ctx : DestroyCtx) (b : Balloon)
    (p : PlayerState) :
    (Balloon.hit ctx b p).1.health = b.health - 1 ∧
    (Balloon.destroy ctx b p).1.isAlive = false ∧
    Balloon.destroy ctx (Balloon.destroy ctx b p).1 (Balloon.destroy ctx b p).2 =
      ((Balloon.destroy ctx b p).1, (Balloon.destroy ctx b p).2) := by
  cases hb : b.isAlive <;>
    simp [Balloon.hit, Balloon.destroy, hb] <;>
    split <;> simp [Balloon.destroy, hb]

/-- Counterexample to claim C6: hitting an already-destroyed balloon is not a
no-op on the entity — the stored hit-points still decrement. -/
theorem C6_counterexample :
    (Balloon.hit ctxPlain deadBalloon PlayerState.init).1.health ≠ deadBalloon.health := by
  simp [Balloon.hit, Balloon.destroy, deadBalloon]

/-- Amended claim C6: hitting an already-destroyed balloon never throws and
leaves the player state (score, stats, combo, missed) unchanged — the nested
`destroy` is a guarded no-op — but it does decrement the balloon's stored
hit-points field, and the balloon stays dead. -/
theorem C6_hit_dead_balloon (ctx : DestroyCtx) (b : Balloon) (p : PlayerState)
    (h : b.isAlive = false) :
    (Balloon.hit ctx b p).2.1 = p ∧
    (Balloon.hit ctx b p).1 = { b with health := b.health - 1 } ∧
    (Balloon.hit ctx b p).1.isAlive = false := by
  simp only [Balloon.hit, Balloon.destroy, h, Bool.not_false, if_true]
  split <;> simp [h]

/-- Witness for C6's amended claim on the concrete dead balloon. -/
theorem C6_witness :
    (Balloon.hit ctxPlain deadBalloon PlayerState.init).2.1 = PlayerState.init ∧
    (Balloon.hit ctxPlain deadBalloon PlayerState.init).1 =
      { deadBalloon with health := deadBalloon.health - 1 } ∧
    (Balloon.hit ctxPlain deadBalloon PlayerState.init).1.isAlive = false :=
  C6_hit_dead_balloon ctxPlain deadBalloon PlayerState.init rfl

/-- Claim C10: when a live normal balloon crosses the near boundary
(z > 20 after integration) in an update with no vortex amplifier and no
shield, the same update call raises exactly one missed event (missed count
+1, combo reset to 0) and then destroys the balloon, which still awards its
depth-weighted point value (at combo multiplier 1, the combo having just been
broken) and leaves the combo at 1. -/
theorem C10_missed_balloon_scores (ctx : DestroyCtx) (dt : ℚ) (b : Balloon)
    (p : PlayerState)
    (halive : b.isAlive = true) (hage : b.maxAge = none)
    (hz : 20 < b.position.z + b.velocity.z * dt)
    (hsh : p.isShielded = false) (hvx : ctx.vortexActive = false)
    (hty : b.type = BalloonType.normal) :
    (Balloon.update ctx dt b p).2.missed = p.missed + 1 ∧
    (Balloon.update ctx dt b p).2.stats.currentCombo = 1 ∧
    (Balloon.update ctx dt b p).2.score =
      p.score + ⌊(b.points : ℚ) * MathUtils.getDepthBonus (b.position.z + b.velocity.z * dt) 200⌋ ∧
    (Balloon.update ctx dt b p).1.isAlive = false := by
  have hz0 : (0:ℚ) < b.position.z + b.velocity.z * dt := by linarith
  have hz' : b.position.z + b.velocity.z * dt ≠ 0 := ne_of_gt hz0
  simp [Balloon.update, hage, Balloon.onMissed, PlayerState.addMissed, hsh,
    PlayerState.breakCombo, hz, Balloon.destroy, halive, PlayerState.addScore, hz',
    hty, hvx, apply_ite]

/-- Witness for C10: the balloon at z = 19 moving at 2 per second, one 1 s
tick, against a fresh player. -/
theorem C10_witness :
    (Balloon.update ctxPlain 1 balloonC10 PlayerState.init).2.missed = PlayerState.init.missed + 1 ∧
    (Balloon.update ctxPlain 1 balloonC10 PlayerState.init).2.stats.currentCombo = 1 ∧
    (Balloon.update ctxPlain 1 balloonC10 PlayerState.init).2.score =
      PlayerState.init.score +
        ⌊(balloonC10.points : ℚ) *
          MathUtils.getDepthBonus (balloonC10.position.z + balloonC10.velocity.z * 1) 200⌋ ∧
    (Balloon.update ctxPlain 1 balloonC10 PlayerState.init).1.isAlive = false :=
  C10_missed_balloon_scores ctxPlain 1 balloonC10 PlayerState.init rfl rfl
    (by norm_num [balloonC10]) rfl rfl rfl

/-- Counterexample to claim C2: a player projectile with two live enemies
inside its hit radius damages both of them in the same collision pass — after
its first hit (which destroys it) it still participates in the remaining
proximity tests, because the inner `forEach` never re-checks
`projectile.isAlive`. -/
theorem C2_counterexample :
    ((handleProjectile ctxPlain projC2 [enemyA, enemyB] [] PlayerState.init).2.1.map Enemy.health
      = [1, 1]) ∧ enemyA.health = 2 ∧ enemyB.health = 2 := by
  refine ⟨?_, rfl, rfl⟩
  norm_num [handleProjectile, enemyLoop, balloonLoop, Enemy.hit, Enemy.destroy,
    distLe, distSq, projC2, enemyA, enemyB, List.range_succ, ctxPlain]

/-- A projectile that enters the enemy pass dead comes out dead: no step of
the loop revives it. -/
theorem enemyLoop_proj_stays_dead (ks : List ℕ) (proj : Projectile) (es : List Enemy)
    (p : PlayerState) (h : proj.isAlive = false) :
    (enemyLoop ks proj es p).1.isAlive = false := by
  induction ks generalizing proj es p with
  | nil => simpa [enemyLoop] using h
  | cons k ks ih =>
    cases hek : es[k]? with
    | none =>
      simp only [enemyLoop, hek]
      exact ih proj es p h
    | some e =>
      simp only [enemyLoop, hek]
      split
      · exact ih _ _ _ rfl
      · exact ih _ _ _ h

/-- If some index the enemy pass will still visit holds a live enemy within
hit radius, the pass leaves the projectile destroyed. -/
theorem enemyLoop_hits_when_in_range (ks : List ℕ) (proj : Projectile)
    (es : List Enemy) (p : PlayerState)
    (hex : ∃ k ∈ ks, ∃ e, es[k]? = some e ∧ e.isAlive = true ∧
      distLe proj.position e.position (max e.width e.height / 2 + 1) = true) :
    (enemyLoop ks proj es p).1.isAlive = false := by
  induction ks generalizing proj es p with
  | nil =>
    rcases hex with ⟨k, hk, _⟩
    exact absurd hk (List.not_mem_nil k)
  | cons k ks ih =>
    rcases hex with ⟨j, hj, e, hje, he, hd⟩
    cases hek : es[k]? with
    | none =>
      simp only [enemyLoop, hek]
      have hj' : j ∈ ks := by
        rcases List.mem_cons.mp hj with h | h
        · subst h; rw [hek] at hje; exact absurd hje (by simp)
        · exact h
      exact ih _ _ _ ⟨j, hj', e, hje, he, hd⟩
    | some e' =>
      simp only [enemyLoop, hek]
      by_cases hc :
          (e'.isAlive && distLe proj.position e'.position (max e'.width e'.height / 2 + 1)) = true
      · rw [if_pos hc]
        exact enemyLoop_proj_stays_dead _ _ _ _ rfl
      · rw [if_neg hc]
        have hj' : j ∈ ks := by
          rcases List.mem_cons.mp hj with h | h
          · subst h
            rw [hek] at hje
            injection hje with hh
            subst hh
            simp [he, hd] at hc
          · exact h
        exact ih _ _ _ ⟨j, hj', e, hje, he, hd⟩

/-- Amended claim C2: Hostiles are tested before Targets, and whenever some
live Hostile lies within hit radius of a live player projectile, the enemy
pass destroys the projectile and the Target (balloon) pass is skipped
entirely — the balloon list comes through untouched.  (The original "at most
one hit per pass" is false: within a pass the projectile can hit every
in-range entity of that category, as the counterexample shows.) -/
theorem C2_hostile_priority (ctx : DestroyCtx) (proj : Projectile) (es : List Enemy)
    (bs : List Balloon) (p : PlayerState)
    (howner : proj.owner = Owner.player) (halive : proj.isAlive = true)
    (hex : ∃ e ∈ es, e.isAlive = true ∧
      distLe proj.position e.position (max e.width e.height / 2 + 1) = true) :
    (handleProjectile ctx proj es bs p).1.isAlive = false ∧
    (handleProjectile ctx proj es bs p).2.2.1 = bs := by
  rcases hex with ⟨e, he, ha, hd⟩
  obtain ⟨j, hjlt, hje⟩ := List.getElem_of_mem he
  have hje' : es[j]? = some e := by
    rw [List.getElem?_eq_getElem hjlt, hje]
  have hloop := enemyLoop_hits_when_in_range (List.range es.length) proj es p
    ⟨j, List.mem_range.mpr hjlt, e, hje', ha, hd⟩
  simp [handleProjectile, howner, halive, hloop]

/-- Witness for C2's amended claim: one in-range enemy, one distant balloon;
the projectile dies in the enemy pass and the balloon list is untouched. -/
theorem C2_witness :
    (handleProjectile ctxPlain projC2 [enemyA] [balloonFar] PlayerState.init).1.isAlive = false ∧
    (handleProjectile ctxPlain projC2 [enemyA] [balloonFar] PlayerState.init).2.2.1 = [balloonFar] :=
  C2_hostile_priority ctxPlain projC2 [enemyA] [balloonFar] PlayerState.init rfl rfl
    ⟨enemyA, List.mem_singleton.mpr rfl, rfl, by norm_num [distLe, distSq, enemyA, projC2]⟩
